import Mathlib

/-!
Verification of the recipe scaler (recipe_scaler.py).

Numbers are modelled as rationals (Python floats idealized as exact decimal
arithmetic).  Python round() uses banker's rounding (round half to even);
round(x, n) is modelled as half-even rounding of x * 10^n divided by 10^n.
Recipe dicts are modelled as structures whose required keys (name, servings,
ingredients, and per-ingredient name/amount/unit) are always present; the
truthiness and key-membership checks of scale_recipe therefore always pass in
the modelled domain, and a recipe with servings = 0 reaches the
scale_factor division, which raises ZeroDivisionError in Python and is
modelled by an explicit crash result.
-/

namespace RecipeScaler

/-- Python round-half-to-even of a rational to an integer, as in round(x). -/
def pyRoundInt (q : ℚ) : ℤ :=
  if q - ⌊q⌋ < 1/2 then ⌊q⌋
  else if 1/2 < q - ⌊q⌋ then ⌊q⌋ + 1
  else if ⌊q⌋ % 2 = 0 then ⌊q⌋ else ⌊q⌋ + 1

/-- Python round(x, 1). -/
def pyRound1 (q : ℚ) : ℚ := (pyRoundInt (q * 10) : ℚ) / 10

/-- Python round(x, 2). -/
def pyRound2 (q : ℚ) : ℚ := (pyRoundInt (q * 100) : ℚ) / 100

/-- An ingredient dict: name, amount, unit keys. -/
structure Ingredient where
  name : String
  amount : ℚ
  unit : String
deriving DecidableEq

/-- A recipe dict: name, servings, ingredients keys. -/
structure Recipe where
  name : String
  servings : ℤ
  ingredients : List Ingredient
deriving DecidableEq

/-- Outcome of scale_recipe: a scaled recipe, the None error return, or an
uncaught exception (ZeroDivisionError when recipe servings is 0). -/
inductive ScaleResult
  | ok (r : Recipe)
  | invalid
  | crash
deriving DecidableEq

/-- The per-ingredient body of the scaling loop of scale_recipe
(recipe_scaler.py lines 124-157), applied to the already-scaled amount:
piece amounts are rounded to the nearest quarter; a cup amount below 0.25
is downshifted to tablespoons (and to teaspoons when the tablespoon amount
is below 1); a tablespoon amount below 0.5 is downshifted to teaspoons;
otherwise cups round to 2 decimals, tbsp/tsp to 1; g and ml round to whole
numbers; any other unit rounds to 1 decimal. -/
def normalize_scaled (a : ℚ) (unit : String) : ℚ × String :=
  if unit = "piece" then ((pyRoundInt (a * 4) : ℚ) / 4, unit)
  else if unit = "cup" ∨ unit = "tbsp" ∨ unit = "tsp" then
    if unit = "cup" ∧ a < 1/4 then
      if 1 ≤ a * 16 then (pyRound1 (a * 16), "tbsp")
      else (pyRound1 (a * 16 * 3), "tsp")
    else if unit = "tbsp" ∧ a < 1/2 then (pyRound1 (a * 3), "tsp")
    else ((if unit = "cup" then pyRound2 a else pyRound1 a), unit)
  else if unit = "g" ∨ unit = "ml" then ((pyRoundInt a : ℚ), unit)
  else (pyRound1 a, unit)

/-- scale_recipe (recipe_scaler.py lines 80-159).  The checks on a falsy
recipe and on the presence of the servings/ingredients keys always pass in
the modelled domain (see module comment); new_servings <= 0 produces the
None error return, and servings = 0 raises ZeroDivisionError at the
scale_factor division.  Otherwise the factor is the real-valued ratio
new_servings / servings and each ingredient of the fresh copy is updated by
the scaling loop. -/
def scale_recipe (recipe : Recipe) (new_servings : ℤ) : ScaleResult :=
  if new_servings ≤ 0 then .invalid
  else if recipe.servings = 0 then .crash
  else
    let factor : ℚ := (new_servings : ℚ) / (recipe.servings : ℚ)
    .ok { recipe with
          servings := new_servings,
          ingredients := recipe.ingredients.map (fun i =>
            let p := normalize_scaled (i.amount * factor) i.unit
            { i with amount := p.1, unit := p.2 }) }

/-- Characterization of a successful scale_recipe call: the guards passed and
the result is the recipe with new servings and the scaling loop applied. -/
theorem scale_recipe_eq_ok {r : Recipe} {n : ℤ} {s : Recipe}
    (h : scale_recipe r n = .ok s) :
    0 < n ∧ r.servings ≠ 0 ∧
      s = { r with
            servings := n,
            ingredients := r.ingredients.map (fun i =>
              let p := normalize_scaled (i.amount * ((n : ℚ) / (r.servings : ℚ))) i.unit
              { i with amount := p.1, unit := p.2 }) } := by
  unfold scale_recipe at h
  split_ifs at h with h1 h2
  exact ⟨by omega, h2, by injection h with h3; exact h3.symm⟩

/-- C1: for a recipe with positive servings and a positive new serving
count, scale_recipe forms the real-valued ratio newServings / servings and
every output ingredient is the original one whose amount was first
multiplied by exactly that factor, with the rounding/unit policy
(normalize_scaled) applied only to that product afterwards. -/
theorem C1_scaling_linearity (r : Recipe) (n : ℤ) (s : Recipe)
    (hs : 0 < r.servings) (hn : 0 < n)
    (hok : scale_recipe r n = .ok s) (i : ℕ) (hi : i < r.ingredients.length) :
    ∃ ing, r.ingredients[i]? = some ing ∧
      s.ingredients[i]? = some
        { ing with
          amount := (normalize_scaled (ing.amount * ((n : ℚ) / (r.servings : ℚ))) ing.unit).1,
          unit := (normalize_scaled (ing.amount * ((n : ℚ) / (r.servings : ℚ))) ing.unit).2 } := by
  obtain ⟨-, -, rfl⟩ := scale_recipe_eq_ok hok
  exact ⟨r.ingredients[i], by simp [hi], by simp [List.getElem?_map, hi]⟩

/-- Witness for C1 at a concrete recipe: 1 cup of flour for 2 servings
scaled to 4 servings doubles to 2 cups. -/
theorem C1_scaling_linearity_witness :
    ∃ ing, (⟨"r", 2, [⟨"flour", 1, "cup"⟩]⟩ : Recipe).ingredients[0]? = some ing ∧
      (⟨"r", 4, [⟨"flour", 2, "cup"⟩]⟩ : Recipe).ingredients[0]? = some
        { ing with
          amount := (normalize_scaled (ing.amount * (((4 : ℤ) : ℚ) / (((2 : ℤ)) : ℚ))) ing.unit).1,
          unit := (normalize_scaled (ing.amount * (((4 : ℤ) : ℚ) / (((2 : ℤ)) : ℚ))) ing.unit).2 } :=
  C1_scaling_linearity ⟨"r", 2, [⟨"flour", 1, "cup"⟩]⟩ 4 ⟨"r", 4, [⟨"flour", 2, "cup"⟩]⟩
    (by norm_num) (by norm_num)
    (by norm_num [scale_recipe, normalize_scaled, pyRound2, pyRoundInt] <;> decide)
    0 (by norm_num)

/-- C2 counterexample: the claim requires a non-empty ingredient list and
servings > 0, with every violation failing as an InvalidInput error that
does not crash.  The code accepts an empty ingredient list (returning a
scaled result rather than an error), and a recipe with servings = 0 raises
an uncaught ZeroDivisionError (a crash, not an InvalidInput error). -/
theorem C2_validation_cex :
    scale_recipe ⟨"r", 1, []⟩ 2 = .ok ⟨"r", 2, []⟩ ∧
    scale_recipe ⟨"r", 0, [⟨"x", 1, "g"⟩]⟩ 2 = .crash := by
  constructor <;> norm_num [scale_recipe]

/-- C2 amended: in the modelled domain (recipe dicts with all required
keys) scale_recipe returns the InvalidInput error exactly when
newServings <= 0; it raises ZeroDivisionError exactly when newServings is
positive and servings = 0; in every other case, including an empty
ingredient list, it returns a scaled recipe. -/
theorem C2_validation_amended (r : Recipe) (n : ℤ) :
    (scale_recipe r n = .invalid ↔ n ≤ 0) ∧
    (scale_recipe r n = .crash ↔ (0 < n ∧ r.servings = 0)) ∧
    (0 < n → r.servings ≠ 0 → ∃ s, scale_recipe r n = .ok s) := by
  refine ⟨?_, ?_, ?_⟩
  · unfold scale_recipe
    split_ifs with h1 h2 <;> simp_all <;> omega
  · unfold scale_recipe
    split_ifs with h1 h2 <;> simp_all <;> omega
  · unfold scale_recipe
    split_ifs with h1 h2
    · intro ha _
      omega
    · intro _ hb
      exact absurd h2 hb
    · intro _ _
      exact ⟨_, rfl⟩

/-- Witness for C2 amended: an empty ingredient list is accepted. -/
theorem C2_validation_amended_witness :
    ∃ s, scale_recipe ⟨"r", 1, []⟩ 2 = .ok s :=
  (C2_validation_amended ⟨"r", 1, []⟩ 2).2.2 (by norm_num) (by norm_num)

/-- C4: the volume-unit downshift applied to scaled amounts: a cup amount
below 0.25 becomes tablespoons (x16), and teaspoons (x3 further) when the
tablespoon amount is below 1; a tablespoon amount below 0.5 becomes
teaspoons (x3); otherwise the unit is kept. -/
theorem C4_volume_downshift (a : ℚ) (u : String) :
    (a < 1/4 → normalize_scaled a "cup" =
        if 1 ≤ a * 16 then (pyRound1 (a * 16), "tbsp")
        else (pyRound1 (a * 16 * 3), "tsp")) ∧
    (a < 1/2 → normalize_scaled a "tbsp" = (pyRound1 (a * 3), "tsp")) ∧
    (1/4 ≤ a → (normalize_scaled a "cup").2 = "cup") ∧
    (1/2 ≤ a → (normalize_scaled a "tbsp").2 = "tbsp") ∧
    (u ≠ "cup" → u ≠ "tbsp" → (normalize_scaled a u).2 = u) := by
  refine ⟨fun h => ?_, fun h => ?_, fun h => ?_, fun h => ?_, fun h1 h2 => ?_⟩
  · unfold normalize_scaled
    split_ifs <;> simp_all
  · unfold normalize_scaled
    split_ifs <;> simp_all <;> linarith
  · unfold normalize_scaled
    split_ifs <;> simp_all <;> linarith
  · unfold normalize_scaled
    split_ifs <;> simp_all <;> linarith
  · unfold normalize_scaled
    split_ifs <;> simp_all

/-- Witness for C4: a scaled amount of exactly 0.2 cups yields 3.2 tbsp. -/
theorem C4_volume_downshift_witness :
    normalize_scaled (1/5) "cup" = (16/5, "tbsp") := by
  have h := (C4_volume_downshift (1/5) "x").1 (by norm_num)
  rw [h, if_pos (by norm_num)]
  norm_num [pyRound1, pyRoundInt]

/-- C8: a piece amount is rounded to the nearest quarter via
round(amount * 4) / 4 with the unit unchanged; in particular 1.6 pieces
round to 1.5. -/
theorem C8_piece_rounding (a : ℚ) :
    normalize_scaled a "piece" = ((pyRoundInt (a * 4) : ℚ) / 4, "piece") ∧
    normalize_scaled (8/5) "piece" = (3/2, "piece") := by
  constructor
  · simp [normalize_scaled]
  · norm_num [normalize_scaled, pyRoundInt]

/-- The scaling loop body can only keep the unit, downshift cup to
tbsp or tsp, or downshift tbsp to tsp. -/
theorem normalize_scaled_unit_cases (a : ℚ) (u : String) :
    (normalize_scaled a u).2 = u ∨
    (u = "cup" ∧ ((normalize_scaled a u).2 = "tbsp" ∨ (normalize_scaled a u).2 = "tsp")) ∨
    (u = "tbsp" ∧ (normalize_scaled a u).2 = "tsp") := by
  unfold normalize_scaled
  split_ifs <;> simp_all

/-- C10: every ingredient of a scale_recipe result keeps its original unit
except for the cup-to-tbsp, cup-to-tsp and tbsp-to-tsp downshifts; in
particular the scaling path never turns a volume unit into a weight unit
(the density-based conversion of get_best_unit plays no part in
scale_recipe). -/
theorem C10_scaling_unit_invariant (r : Recipe) (n : ℤ) (s : Recipe)
    (hok : scale_recipe r n = .ok s) (i : ℕ) (a b : Ingredient)
    (ha : r.ingredients[i]? = some a) (hb : s.ingredients[i]? = some b) :
    b.unit = a.unit ∨
    (a.unit = "cup" ∧ (b.unit = "tbsp" ∨ b.unit = "tsp")) ∨
    (a.unit = "tbsp" ∧ b.unit = "tsp") := by
  obtain ⟨-, -, rfl⟩ := scale_recipe_eq_ok hok
  simp only [List.getElem?_map, ha, Option.map_some', Option.some.injEq] at hb
  subst hb
  exact normalize_scaled_unit_cases _ _

/-- Witness for C10: scaling 1 cup from 8 servings to 1 downshifts the cup
to tablespoons, an allowed unit change. -/
theorem C10_scaling_unit_invariant_witness :
    (⟨"x", 2, "tbsp"⟩ : Ingredient).unit = (⟨"x", 1, "cup"⟩ : Ingredient).unit ∨
    ((⟨"x", 1, "cup"⟩ : Ingredient).unit = "cup" ∧
      ((⟨"x", 2, "tbsp"⟩ : Ingredient).unit = "tbsp" ∨
       (⟨"x", 2, "tbsp"⟩ : Ingredient).unit = "tsp")) ∨
    ((⟨"x", 1, "cup"⟩ : Ingredient).unit = "tbsp" ∧
      (⟨"x", 2, "tbsp"⟩ : Ingredient).unit = "tsp") :=
  C10_scaling_unit_invariant ⟨"r", 8, [⟨"x", 1, "cup"⟩]⟩ 1 ⟨"r", 1, [⟨"x", 2, "tbsp"⟩]⟩
    (by norm_num [scale_recipe, normalize_scaled, pyRound1, pyRoundInt] <;> decide)
    0 ⟨"x", 1, "cup"⟩ ⟨"x", 2, "tbsp"⟩ (by norm_num) (by norm_num)

/-- Lowercasing of an ASCII character, as Python str.lower() acts on the
ASCII unit and ingredient names occurring in the program. -/
def lowerChar (c : Char) : Char :=
  if 65 ≤ c.toNat ∧ c.toNat ≤ 90 then Char.ofNat (c.toNat + 32) else c

/-- Python str.lower() on ASCII strings. -/
def lowerStr (s : String) : String := ⟨s.data.map lowerChar⟩

/-- The volume-unit family set of convert_units (line 177). -/
def volume_units : List String := ["tbsp", "tsp", "cup", "pint", "quart", "liter", "ml"]

/-- The weight-unit family set of convert_units (line 178). -/
def weight_units : List String := ["g", "kg", "oz", "lb"]

/-- The CONVERSIONS table (recipe_scaler.py lines 51-66) as a partial map
from an ordered pair of unit names to the multiplicative factor; pairs
absent from the table (including every pair with equal components) give
none, which convert_units turns into a KeyError fallback. -/
def CONVERSIONS (u t : String) : Option ℚ :=
  match u, t with
  | "tbsp", "tsp" => some 3
  | "tbsp", "cup" => some (1/16)
  | "tbsp", "pint" => some (1/32)
  | "tbsp", "quart" => some (1/64)
  | "tbsp", "liter" => some 0.0147868
  | "tbsp", "ml" => some 14.7868
  | "tsp", "tbsp" => some (1/3)
  | "tsp", "cup" => some (1/48)
  | "tsp", "pint" => some (1/96)
  | "tsp", "quart" => some (1/192)
  | "tsp", "liter" => some 0.00492892
  | "tsp", "ml" => some 4.92892
  | "cup", "tbsp" => some 16
  | "cup", "tsp" => some 48
  | "cup", "pint" => some 0.5
  | "cup", "quart" => some 0.25
  | "cup", "liter" => some 0.236588
  | "cup", "ml" => some 236.588
  | "pint", "tbsp" => some 32
  | "pint", "tsp" => some 96
  | "pint", "cup" => some 2
  | "pint", "quart" => some 0.5
  | "pint", "liter" => some 0.473176
  | "pint", "ml" => some 473.176
  | "quart", "tbsp" => some 64
  | "quart", "tsp" => some 192
  | "quart", "cup" => some 4
  | "quart", "pint" => some 2
  | "quart", "liter" => some 0.946353
  | "quart", "ml" => some 946.353
  | "liter", "tbsp" => some 67.628
  | "liter", "tsp" => some 202.884
  | "liter", "cup" => some 4.22675
  | "liter", "pint" => some 2.11338
  | "liter", "quart" => some 1.05669
  | "liter", "ml" => some 1000
  | "ml", "tbsp" => some 0.067628
  | "ml", "tsp" => some 0.202884
  | "ml", "cup" => some 0.00422675
  | "ml", "pint" => some 0.00211338
  | "ml", "quart" => some 0.00105669
  | "ml", "liter" => some 0.001
  | "g", "kg" => some 0.001
  | "g", "oz" => some 0.035274
  | "g", "lb" => some 0.00220462
  | "kg", "g" => some 1000
  | "kg", "oz" => some 35.274
  | "kg", "lb" => some 2.20462
  | "oz", "g" => some 28.3495
  | "oz", "kg" => some 0.0283495
  | "oz", "lb" => some 0.0625
  | "lb", "g" => some 453.592
  | "lb", "kg" => some 0.453592
  | "lb", "oz" => some 16
  | _, _ => none

/-- convert_units (recipe_scaler.py lines 161-191).  Exactly equal unit
names are an identity; otherwise both names are lowercased, the same-family
check is made, and the (rounded to 2 decimals) table conversion is
returned, with a missing table entry (KeyError) and a cross-family pair
both giving the (None, None) result, modelled as none. -/
def convert_units (amount : ℚ) (unit target_unit : String) : Option (ℚ × String) :=
  if unit = target_unit then some (amount, target_unit)
  else
    if (lowerStr unit ∈ volume_units ∧ lowerStr target_unit ∈ volume_units) ∨
       (lowerStr unit ∈ weight_units ∧ lowerStr target_unit ∈ weight_units) then
      match CONVERSIONS (lowerStr unit) (lowerStr target_unit) with
      | some f => some (pyRound2 (amount * f), lowerStr target_unit)
      | none => none
    else none

/-- Half-even integer rounding is within 1/2 of the argument. -/
theorem pyRoundInt_close (q : ℚ) : |(pyRoundInt q : ℚ) - q| ≤ 1/2 := by
  have h0 : (⌊q⌋ : ℚ) ≤ q := Int.floor_le q
  have h1 : q < ⌊q⌋ + 1 := Int.lt_floor_add_one q
  unfold pyRoundInt
  split_ifs <;> rw [abs_le] <;> push_cast <;> constructor <;> linarith

/-- Rounding to 2 decimals is within 1/200 of the argument. -/
theorem pyRound2_close (q : ℚ) : |pyRound2 q - q| ≤ 1/200 := by
  have h := pyRoundInt_close (q * 100)
  unfold pyRound2
  have e : (pyRoundInt (q * 100) : ℚ) / 100 - q =
      ((pyRoundInt (q * 100) : ℚ) - q * 100) / 100 := by ring
  rw [e, abs_div, abs_of_pos (by norm_num : (0:ℚ) < 100)]
  linarith

/-- C6 counterexample: the claimed flat 0.02 round-trip tolerance fails:
1 ml converted to liters rounds to 0.0, and converting back gives 0 ml,
an absolute error of 1. -/
theorem C6_roundtrip_cex :
    convert_units 1 "ml" "liter" = some (0, "liter") ∧
    convert_units 0 "liter" "ml" = some (0, "ml") ∧
    ¬ |(0 : ℚ) - 1| ≤ 1/50 := by
  refine ⟨?_, ?_, by norm_num⟩
  · unfold convert_units
    rw [if_neg (by decide : ¬ ("ml" = "liter"))]
    simp only [show lowerStr "ml" = "ml" from by decide,
      show lowerStr "liter" = "liter" from by decide]
    rw [if_pos (by decide), show CONVERSIONS "ml" "liter" = some 0.001 from rfl]
    norm_num [pyRound2, pyRoundInt]
  · unfold convert_units
    rw [if_neg (by decide : ¬ ("liter" = "ml"))]
    simp only [show lowerStr "ml" = "ml" from by decide,
      show lowerStr "liter" = "liter" from by decide]
    rw [if_pos (by decide), show CONVERSIONS "liter" "ml" = some 1000 from rfl]
    norm_num [pyRound2, pyRoundInt]

/-- C6 amended: for two distinct same-family units with table factors f
(forward) and g (back), the round trip is within
0.005 * (1 + |g|) + |x| * |f * g - 1| of the original amount: the two
2-decimal roundings contribute up to 0.005 each, the second one amplified
by g, and inexact inverse factor pairs add a drift proportional to x. -/
theorem C6_roundtrip_amended (x f g : ℚ) (u t : String)
    (hfam : (u ∈ volume_units ∧ t ∈ volume_units) ∨
            (u ∈ weight_units ∧ t ∈ weight_units))
    (hne : u ≠ t) (hlu : lowerStr u = u) (hlt : lowerStr t = t)
    (hf : CONVERSIONS u t = some f) (hg : CONVERSIONS t u = some g) :
    convert_units x u t = some (pyRound2 (x * f), t) ∧
    convert_units (pyRound2 (x * f)) t u = some (pyRound2 (pyRound2 (x * f) * g), u) ∧
    |pyRound2 (pyRound2 (x * f) * g) - x| ≤ 1/200 * (1 + |g|) + |x| * |f * g - 1| := by
  refine ⟨?_, ?_, ?_⟩
  · unfold convert_units
    rw [if_neg hne]
    simp only [hlu, hlt]
    rw [if_pos hfam, hf]
  · unfold convert_units
    rw [if_neg (Ne.symm hne)]
    simp only [hlu, hlt]
    rw [if_pos (hfam.imp And.symm And.symm), hg]
  · have h1 : |pyRound2 (x * f) - x * f| ≤ 1/200 := pyRound2_close _
    have h2 : |pyRound2 (pyRound2 (x * f) * g) - pyRound2 (x * f) * g| ≤ 1/200 :=
      pyRound2_close _
    have e : pyRound2 (pyRound2 (x * f) * g) - x =
        (pyRound2 (pyRound2 (x * f) * g) - pyRound2 (x * f) * g) +
        g * (pyRound2 (x * f) - x * f) + x * (f * g - 1) := by ring
    rw [e]
    refine le_trans (abs_add _ _) (le_trans (add_le_add_right (abs_add _ _) _) ?_)
    rw [abs_mul g, abs_mul x]
    have h3 : |g| * |pyRound2 (x * f) - x * f| ≤ |g| * (1/200) :=
      mul_le_mul_of_nonneg_left h1 (abs_nonneg g)
    nlinarith [abs_nonneg g, abs_nonneg x, abs_nonneg (f * g - 1)]

/-- Witness for C6 amended at 1 cup to tbsp and back (exact factors 16 and
1/16, so the drift term vanishes). -/
theorem C6_roundtrip_amended_witness :
    convert_units 1 "cup" "tbsp" = some (pyRound2 (1 * 16), "tbsp") ∧
    convert_units (pyRound2 (1 * 16)) "tbsp" "cup" =
      some (pyRound2 (pyRound2 (1 * 16) * (1/16)), "cup") ∧
    |pyRound2 (pyRound2 (1 * 16) * (1/16)) - 1| ≤
      1/200 * (1 + |(1:ℚ)/16|) + |(1:ℚ)| * |16 * (1/16) - 1| :=
  C6_roundtrip_amended 1 16 (1/16) "cup" "tbsp"
    (by decide) (by decide) (by decide) (by decide) rfl rfl

/-- C9 counterexample: unit matching is not case-insensitive at the
identity: converting between "Cup" and "cup" falls through to the table,
where the lowercased pair is missing, and returns the (None, None)
failure, while the all-lowercase identity succeeds. -/
theorem C9_case_cex :
    convert_units 1 "Cup" "cup" = none ∧
    convert_units 1 "cup" "cup" = some (1, "cup") := by
  constructor
  · unfold convert_units
    rw [if_neg (by decide : ¬ ("Cup" = "cup"))]
    simp only [show lowerStr "Cup" = "cup" from by decide,
      show lowerStr "cup" = "cup" from by decide]
    rw [if_pos (by decide), show CONVERSIONS "cup" "cup" = none from rfl]
  · simp [convert_units]

/-- C9 amended: for distinct unit names the result of convert_units
depends only on the lowercased names, so matching is case-insensitive on
every non-identity pair; the identity branch fires only on exactly equal
strings, and a pair that is equal only up to case returns the failure
result instead of the identity. -/
theorem C9_case_amended (x : ℚ) (a b a2 b2 : String)
    (ha : lowerStr a = lowerStr a2) (hb : lowerStr b = lowerStr b2)
    (hab : a ≠ b) (hab2 : a2 ≠ b2) :
    convert_units x a b = convert_units x a2 b2 := by
  unfold convert_units
  rw [if_neg hab, if_neg hab2, ha, hb]

/-- Witness for C9 amended: mixed-case tsp to tbsp converts exactly as the
lowercase pair. -/
theorem C9_case_amended_witness :
    convert_units 2 "TSP" "Tbsp" = convert_units 2 "tsp" "tbsp" :=
  C9_case_amended 2 "TSP" "Tbsp" "tsp" "tbsp" (by decide) (by decide)
    (by decide) (by decide)

/-- Whether the first character list starts the second (Python substring
matching helper). -/
def listPre : List Char → List Char → Bool
  | [], _ => true
  | _ :: _, [] => false
  | a :: as, b :: bs => a == b && listPre as bs

/-- Whether needle occurs as a contiguous run inside hay. -/
def subChars (needle : List Char) : List Char → Bool
  | [] => needle.isEmpty
  | c :: t => listPre needle (c :: t) || subChars needle t

/-- The Python expression needle in hay on strings. -/
def strContains (hay needle : String) : Bool := subChars needle.data hay.data

/-- skip_conversion (get_best_unit, lines 199-200): ingredient-name
keywords exempt from weight conversion. -/
def skip_conversion : List String :=
  ["garlic", "ginger", "onion", "pepper", "salt", "baking powder",
   "baking soda", "yeast", "spices", "herbs", "vanilla extract", "extract"]

/-- The exemption test of get_best_unit (line 202): some skip keyword is a
substring of the lowercased ingredient name. -/
def isExempt (ingredient_name : String) : Bool :=
  skip_conversion.any (fun k => strContains (lowerStr ingredient_name) k)

/-- INGREDIENT_DENSITY in iteration order (recipe_scaler.py lines 31-48;
this second module-level assignment shadows the dict at lines 4-29, so it
is the one every lookup sees).  Values are grams per cup. -/
def INGREDIENT_DENSITY : List (String × ℚ) :=
  [("flour", 125), ("sugar", 200), ("brown sugar", 220), ("butter", 227),
   ("chocolate chips", 175), ("milk", 240), ("oil", 215), ("honey", 340),
   ("oats", 90), ("rice", 200), ("pasta", 100), ("cheese", 113),
   ("yogurt", 245), ("cream", 240), ("water", 236.588)]

/-- First-match density lookup: the first table key that is a substring of
the lowercased ingredient name wins (the loop shape shared by
get_best_unit lines 208-209 and convert_cups_to_grams lines 275-276). -/
def densityFor (ingredient_name : String) : Option ℚ :=
  (INGREDIENT_DENSITY.find? (fun p => strContains (lowerStr ingredient_name) p.1)).map
    (fun p => p.2)

/-- The ml normalization inside get_best_unit (lines 210-218): cup, tbsp
and tsp are scaled to milliliters, anything else is used as-is. -/
def toMl (current_unit : String) (amount : ℚ) : ℚ :=
  if current_unit = "cup" then amount * 236.588
  else if current_unit = "tbsp" then amount * 14.7868
  else if current_unit = "tsp" then amount * 4.92892
  else amount

/-- The volume fallback of get_best_unit (lines 226-237): a cup amount
below 0.25 becomes tablespoons only when that gives at least 1 tbsp; a
tablespoon amount below 1 becomes teaspoons only when that gives at least
1 tsp; otherwise the amount and unit are returned unchanged. -/
def best_volume_unit (amount : ℚ) (current_unit : String) : ℚ × String :=
  if current_unit = "cup" ∧ amount < 1/4 ∧ 1 ≤ amount * 16 then
    (pyRound1 (amount * 16), "tbsp")
  else if current_unit = "tbsp" ∧ amount < 1 ∧ 1 ≤ amount * 3 then
    (pyRound1 (amount * 3), "tsp")
  else (amount, current_unit)

/-- The volume-unit list checked by get_best_unit (line 206). -/
def gbu_volume_units : List String :=
  ["cup", "tbsp", "tsp", "pint", "quart", "liter", "ml"]

/-- get_best_unit (recipe_scaler.py lines 193-237): exempt ingredients are
returned unchanged; otherwise a volume unit with a density match converts
to grams when the 1-decimal-rounded gram value is at least 1, and in every
other case (including a sub-1-gram density result, which breaks out of the
loop) the volume fallback runs. -/
def get_best_unit (ingredient_name : String) (amount : ℚ) (current_unit : String) :
    ℚ × String :=
  if isExempt ingredient_name then (amount, current_unit)
  else if current_unit ∈ gbu_volume_units then
    match densityFor ingredient_name with
    | some density =>
        if 1 ≤ pyRound1 (toMl current_unit amount * density) then
          (pyRound1 (toMl current_unit amount * density), "g")
        else best_volume_unit amount current_unit
    | none => best_volume_unit amount current_unit
  else best_volume_unit amount current_unit

/-- convert_cups_to_grams (lines 270-280): first density match applied to
the cup amount and rounded to an integer, defaulting to flour's density
125 g/cup when no key matches. -/
def convert_cups_to_grams (ingredient_name : String) (amount : ℚ) : ℤ :=
  match densityFor ingredient_name with
  | some density => pyRoundInt (amount * density)
  | none => pyRoundInt (amount * 125)

/-- The fraction string produced by the str(fraction).split(".") inspection
in display_recipe for fraction = k/4 (k = round(amount*4)): the fractional
digits "25", "5", "75" map through frac_map, and a whole value (digits "0")
produces no fraction. -/
def quarterFrac (k : ℤ) : String :=
  if k.natAbs % 4 = 1 then "1/4"
  else if k.natAbs % 4 = 2 then "1/2"
  else if k.natAbs % 4 = 3 then "3/4"
  else ""

/-- Python str(float) for values whose decimal expansion terminates within
two places (every amount reaching the display path: scale_recipe rounds to
quarters or to at most 2 decimals).  Whole values render with a trailing
".0"; other denominators (unreachable from the program's roundings) render
as a fraction. -/
def decStr (q : ℚ) : String :=
  (if q < 0 then "-" else "") ++
  (if |q|.den = 1 then toString |q|.num ++ ".0"
   else if (|q| * 10).den = 1 then
     toString ((|q| * 10).num / 10) ++ "." ++ toString ((|q| * 10).num % 10)
   else if (|q| * 100).den = 1 then
     toString ((|q| * 100).num / 100) ++ "." ++
       (if (|q| * 100).num % 100 < 10 then "0" else "") ++
       toString ((|q| * 100).num % 100)
   else toString q.num ++ "/" ++ toString q.den)

/-- The f-string piece int(amount) if amount == int(amount) else amount
used by display_recipe lines 308 and 338. -/
def intOrDec (q : ℚ) : String := if q.den = 1 then toString q.num else decStr q

/-- The f-string piece formatted with .1f then stripped of trailing zeros
and the trailing dot (display_recipe line 333). -/
def fmt1f (q : ℚ) : String :=
  (if pyRoundInt (q * 10) < 0 then "-" else "") ++
  (if (pyRoundInt (q * 10)).natAbs % 10 = 0 then
     toString ((pyRoundInt (q * 10)).natAbs / 10)
   else
     toString ((pyRoundInt (q * 10)).natAbs / 10) ++ "." ++
       toString ((pyRoundInt (q * 10)).natAbs % 10))

/-- The per-ingredient line printed by display_recipe (lines 290-339), as a
value; none models an ingredient for which the tsp fraction branch prints
nothing.  Every cup-unit ingredient is rendered in grams via
convert_cups_to_grams, with no exemption check. -/
def display_line (ingredient : Ingredient) : Option String :=
  if ingredient.unit = "piece" then
    if ingredient.amount < 1 ∧ quarterFrac (pyRoundInt (ingredient.amount * 4)) ≠ "" then
      some ("- " ++ quarterFrac (pyRoundInt (ingredient.amount * 4)) ++ " " ++
        ingredient.name)
    else some ("- " ++ intOrDec ingredient.amount ++ " " ++ ingredient.name)
  else if ingredient.unit = "cup" then
    some ("- " ++ toString (convert_cups_to_grams ingredient.name ingredient.amount) ++
      "g " ++ ingredient.name)
  else if ingredient.unit = "tsp" ∨ ingredient.unit = "tbsp" then
    if ingredient.unit = "tbsp" ∧ ingredient.amount < 1/2 then
      some ("- " ++ decStr (pyRound1 (ingredient.amount * 3)) ++ " tsp " ++
        ingredient.name)
    else if ingredient.unit = "tsp" ∧ ingredient.amount < 1 then
      if quarterFrac (pyRoundInt (ingredient.amount * 4)) ≠ "" then
        some ("- " ++ quarterFrac (pyRoundInt (ingredient.amount * 4)) ++ " tsp " ++
          ingredient.name)
      else none
    else
      some ("- " ++ fmt1f ingredient.amount ++ " " ++ ingredient.unit ++ " " ++
        ingredient.name)
  else
    some ("- " ++ intOrDec ingredient.amount ++ " " ++ ingredient.unit ++ " " ++
      ingredient.name)

/-- C5 counterexample: salt is an exempt ingredient, yet a cup-unit salt
ingredient is rendered in grams (125 g via the flour default density): the
rendered output does not keep the original unit family. -/
theorem C5_exempt_cex :
    isExempt "salt" = true ∧
    display_line ⟨"salt", 1, "cup"⟩ = some "- 125g salt" := by
  constructor
  · decide
  · have hd : densityFor "salt" = none := by decide
    unfold display_line convert_cups_to_grams
    rw [hd]
    rw [if_neg (by decide : ¬ (("cup" : String) = "piece")), if_pos rfl]
    have h125 : pyRoundInt ((1 : ℚ) * 125) = 125 := by norm_num [pyRoundInt]
    rw [show (⟨"salt", 1, "cup"⟩ : Ingredient).amount = (1 : ℚ) from rfl, h125]
    decide

/-- C5 amended: get_best_unit leaves every exempt ingredient's amount and
unit unchanged (no weight conversion in normalization), but the display
path renders every cup-unit ingredient in grams through
convert_cups_to_grams regardless of exemption, so an exempt cup-unit
ingredient does not keep its unit family in the rendered output. -/
theorem C5_exempt_amended :
    (∀ nm (a : ℚ) u, isExempt nm = true → get_best_unit nm a u = (a, u)) ∧
    (∀ i : Ingredient, i.unit = "cup" →
      display_line i =
        some ("- " ++ toString (convert_cups_to_grams i.name i.amount) ++ "g " ++
          i.name)) := by
  constructor
  · intro nm a u h
    simp [get_best_unit, h]
  · intro i h
    simp [display_line, h]

/-- Witness for C5 amended: a teaspoon of salt is returned unchanged by
get_best_unit. -/
theorem C5_exempt_amended_witness : get_best_unit "salt" (1 : ℚ) "tsp" = (1, "tsp") :=
  C5_exempt_amended.1 "salt" 1 "tsp" (by decide)

/-- C7: for a non-exempt ingredient in a volume unit with a density-table
match, get_best_unit switches to grams exactly when the gram value rounded
to 1 decimal is at least 1; when it is below 1 the conversion is abandoned
and the volume fallback logic runs instead. -/
theorem C7_density_floor (nm : String) (a d : ℚ) (u : String)
    (hex : isExempt nm = false) (hu : u ∈ gbu_volume_units)
    (hd : densityFor nm = some d) :
    (1 ≤ pyRound1 (toMl u a * d) →
      get_best_unit nm a u = (pyRound1 (toMl u a * d), "g")) ∧
    (pyRound1 (toMl u a * d) < 1 →
      get_best_unit nm a u = best_volume_unit a u) := by
  constructor
  · intro h
    unfold get_best_unit
    rw [if_neg (by simp [hex]), if_pos hu, hd]
    show (if 1 ≤ pyRound1 (toMl u a * d) then (pyRound1 (toMl u a * d), "g")
          else best_volume_unit a u) = _
    rw [if_pos h]
  · intro h
    unfold get_best_unit
    rw [if_neg (by simp [hex]), if_pos hu, hd]
    show (if 1 ≤ pyRound1 (toMl u a * d) then (pyRound1 (toMl u a * d), "g")
          else best_volume_unit a u) = _
    rw [if_neg (not_le.mpr h)]

/-- Witness for C7: 1 cup of flour (density 125 g/cup) converts to grams,
the rounded value being at least 1 g. -/
theorem C7_density_floor_witness :
    get_best_unit "flour" 1 "cup" = (pyRound1 (toMl "cup" 1 * 125), "g") :=
  (C7_density_floor "flour" 1 125 "cup" (by decide) (by decide) (by decide)).1
    (by norm_num [pyRound1, pyRoundInt, toMl])

/-- A Python heap object relevant to scale_recipe: a recipe dict whose
ingredients key holds the addresses of its ingredient dicts, or an
ingredient dict. -/
inductive Obj
  | recipe (name : String) (servings : ℤ) (ings : List ℕ)
  | ingredient (name : String) (amount : ℚ) (unit : String)
deriving DecidableEq

/-- A heap of Python objects: an address is a list index and allocation
appends at the end, so an existing object keeps its address. -/
abbrev Heap := List Obj

/-- Reading the name/amount/unit keys of an ingredient dict; none models a
lookup that raises (dangling address or wrong object shape). -/
def readIng (h : Heap) (a : ℕ) : Option (String × ℚ × String) :=
  match h[a]? with
  | some (.ingredient nm am u) => some (nm, am, u)
  | _ => none

/-- Reading a whole ingredient list. -/
def readIngs (h : Heap) : List ℕ → Option (List (String × ℚ × String))
  | [] => some []
  | a :: as =>
    match readIng h a, readIngs h as with
    | some v, some vs => some (v :: vs)
    | _, _ => none

/-- The in-place mutation loop of scale_recipe on the heap: the fresh
ingredient copies sit at consecutive addresses starting at base, and each
is overwritten with its scaled, normalized value. -/
def scaleLoop (factor : ℚ) : Heap → ℕ → List (String × ℚ × String) → Heap
  | h, _, [] => h
  | h, base, v :: rest =>
      scaleLoop factor
        (h.set base (.ingredient v.1 (normalize_scaled (v.2.1 * factor) v.2.2).1
          (normalize_scaled (v.2.1 * factor) v.2.2).2))
        (base + 1) rest

/-- scale_recipe acting on the heap, following the Python statement order:
the shallow recipe.copy() is allocated at address h.length with the
original servings and ingredient-address list; the ingredient copies are
allocated right after it; the copy's ingredients key is re-bound to the
fresh addresses (a mutation of the copy only); the scale_factor division
either raises ZeroDivisionError (servings = 0, call abandoned with no
result) or succeeds, after which the copy's servings key is assigned and
the loop mutates each fresh ingredient copy in place.  The returned
address is the recipe copy's; the error return and a propagated exception
both give none. -/
def scale_recipe_heap (h : Heap) (addr : ℕ) (new_servings : ℤ) : Heap × Option ℕ :=
  match h[addr]? with
  | some (.recipe nm sv ingAddrs) =>
    if new_servings ≤ 0 then (h, none)
    else
      match readIngs (h ++ [Obj.recipe nm sv ingAddrs]) ingAddrs with
      | none => (h ++ [Obj.recipe nm sv ingAddrs], none)
      | some vals =>
        if sv = 0 then
          (((h ++ [Obj.recipe nm sv ingAddrs]) ++
              vals.map (fun v => Obj.ingredient v.1 v.2.1 v.2.2)).set h.length
            (.recipe nm sv ((List.range vals.length).map (h.length + 1 + ·))), none)
        else
          (scaleLoop ((new_servings : ℚ) / (sv : ℚ))
            ((((h ++ [Obj.recipe nm sv ingAddrs]) ++
                vals.map (fun v => Obj.ingredient v.1 v.2.1 v.2.2)).set h.length
              (.recipe nm sv ((List.range vals.length).map (h.length + 1 + ·)))).set
              h.length
              (.recipe nm new_servings ((List.range vals.length).map (h.length + 1 + ·))))
            (h.length + 1) vals,
           some h.length)
  | _ => (h, none)

/-- The mutation loop only writes at addresses at or above base. -/
theorem scaleLoop_frame (factor : ℚ) (vals : List (String × ℚ × String)) :
    ∀ (h : Heap) (base j : ℕ), j < base → (scaleLoop factor h base vals)[j]? = h[j]? := by
  induction vals with
  | nil => intro h base j hj; rfl
  | cons v rest ih =>
      intro h base j hj
      rw [scaleLoop, ih _ (base + 1) j (by omega),
        List.getElem?_set_ne (by omega : base ≠ j)]

/-- C3: scale_recipe never mutates the original recipe record: every
object present in the heap before the call (the recipe dict, with its
servings value and ingredient-address list, and every ingredient dict,
with its name, amount and unit) is unchanged at its address afterwards,
whatever the outcome; and the scaled result, when produced, is a fresh
record at a fresh address. -/
theorem C3_no_mutation (h : Heap) (addr : ℕ) (n : ℤ) :
    (∀ j, j < h.length → (scale_recipe_heap h addr n).1[j]? = h[j]?) ∧
    (∀ a2, (scale_recipe_heap h addr n).2 = some a2 → h.length ≤ a2) := by
  unfold scale_recipe_heap
  split
  next nm sv ingAddrs heq =>
    split_ifs with h1 h2
    · simp
    · -- ZeroDivisionError branch: copies allocated, ingredients key re-bound
      split
      next hre => exact ⟨fun j hj => List.getElem?_append_left hj, by simp⟩
      next vals hre =>
        refine ⟨fun j hj => ?_, by simp⟩
        rw [List.getElem?_set_ne (by omega : h.length ≠ j),
          List.getElem?_append_left (by simp; omega),
          List.getElem?_append_left hj]
    · split
      next hre => exact ⟨fun j hj => List.getElem?_append_left hj, by simp⟩
      next vals hre =>
        refine ⟨fun j hj => ?_, fun a2 ha2 => ?_⟩
        · rw [scaleLoop_frame _ _ _ _ _ (by omega),
            List.getElem?_set_ne (by omega : h.length ≠ j),
            List.getElem?_set_ne (by omega : h.length ≠ j),
            List.getElem?_append_left (by simp; omega),
            List.getElem?_append_left hj]
        · simp only [Option.some.injEq] at ha2
          omega
  next heq => simp

/-- Witness for C3 at a concrete two-object heap: scaling a one-ingredient
recipe leaves the original recipe object at address 0 unchanged. -/
theorem C3_no_mutation_witness :
    (scale_recipe_heap [Obj.recipe "r" 2 [1], Obj.ingredient "x" 1 "g"] 0 4).1[0]? =
      ([Obj.recipe "r" 2 [1], Obj.ingredient "x" 1 "g"] : Heap)[0]? :=
  (C3_no_mutation [Obj.recipe "r" 2 [1], Obj.ingredient "x" 1 "g"] 0 4).1 0 (by norm_num)

end RecipeScaler
